import Mathlib

/-!
Shallow embedding of the blueshift_challenges repository
(blueshift_escrow and blueshift_native_amm Solana programs, written
against the pinocchio runtime library).

Modelling conventions:
* machine bytes are Nat (values < 256 on the inputs we build);
* addresses are an inductive type: a raw 32-byte identity or a program
  derived address (PDA).  Program address derivation is idealized as the
  constructor itself, matching the spec's "deterministic, collision
  resistant by construction" contract for derive(seeds, program_id);
* fallible Rust functions returning Result<T, ProgramError> become
  Except ProgramError T;
* cross-program invocations (token transfers, mint, close, create) are
  the trusted collaborators the spec excludes; an instruction handler is
  embedded as the list of CPIs it issues together with its own
  success/failure, and a separate interpreter applies CPIs to a ledger
  world of balances and live accounts.
-/

/-- An account address: either a raw identity (wallet / program id bytes)
or a program-derived address from a seed list and a program id byte
string, modelling pinocchio's derive_address / find_program_address. -/
inductive Address where
  | raw : List Nat → Address
  | derived : List (List Nat) → List Nat → Address
deriving DecidableEq, Repr

/-- Byte rendering of an address, modelling Address::to_bytes /
as_array.  For raw addresses it is the identity; for derived addresses
an arbitrary executable rendering (the proofs compare addresses
structurally, mirroring the spec's idealized collision resistance). -/
def Address.asArray : Address → List Nat
  | .raw bs => bs
  | .derived seeds prog => 7 :: prog ++ seeds.flatMap (fun s => s.length :: s)

/-- Model of pinocchio_pubkey::derive_address(seeds, None, program_id). -/
def deriveAddress (seeds : List (List Nat)) (progBytes : List Nat) : Address :=
  .derived seeds progBytes

/-- Model of Address::find_program_address(seeds, program).0. -/
def findProgramAddress (seeds : List (List Nat)) (progBytes : List Nat) : Address :=
  .derived seeds progBytes

/-- pinocchio's ProgramError variants used by the two programs. -/
inductive ProgramError where
  | NotEnoughAccountKeys
  | MissingRequiredSignature
  | InvalidAccountOwner
  | InvalidAccountData
  | InvalidInstructionData
  | InvalidArgument
  | InvalidSeeds
  | Custom : Nat → ProgramError
deriving DecidableEq, Repr

/-- blueshift_escrow/src/errors.rs: PinocchioError enum (discriminants
0..4), converted into ProgramError::Custom(code). -/
inductive PinocchioError where
  | NotRentExempt
  | NotSigner
  | InvalidOwner
  | InvalidAccountData
  | InvalidAddress
deriving DecidableEq, Repr

/-- errors.rs: impl From<PinocchioError> for ProgramError
(ProgramError::Custom(e as u32)). -/
def PinocchioError.toProgram : PinocchioError → ProgramError
  | .NotRentExempt => .Custom 0
  | .NotSigner => .Custom 1
  | .InvalidOwner => .Custom 2
  | .InvalidAccountData => .Custom 3
  | .InvalidAddress => .Custom 4

/-- A view of an account as handed to an instruction: its address, the
program that owns it, whether it signed the transaction, and its data
bytes (data_len is the length of data). -/
structure AccountView where
  address : Address
  owner : Address
  isSigner : Bool
  data : List Nat
deriving DecidableEq, Repr

/-- account.data_len() -/
def AccountView.dataLen (a : AccountView) : Nat := a.data.length

-- Program id constants (distinct raw addresses).
def tokenProgramId : Address := .raw [1]
def token2022ProgramId : Address := .raw [2]
def ataProgramId : Address := .raw [3]
def systemProgramId : Address := .raw [4]
def escrowProgramId : Address := .raw [5]
def ammProgramId : Address := .raw [6]

/-- pinocchio_token::state::Mint::LEN -/
def mintLen : Nat := 82
/-- pinocchio_token::state::TokenAccount::LEN -/
def tokenAccountLen : Nat := 165
/-- TOKEN_2022_ACCOUNT_DISCRIMINATOR_OFFSET -/
def discOffset : Nat := 165
/-- TOKEN_2022_MINT_DISCRIMINATOR -/
def mintDisc : Nat := 1
/-- TOKEN_2022_TOKEN_ACCOUNT_DISCRIMINATOR -/
def tokenAccountDisc : Nat := 2

/-- Little-endian rendering of a natural into a fixed number of bytes,
modelling u64::to_le_bytes and friends. -/
def natToLeBytes (width n : Nat) : List Nat :=
  match width with
  | 0 => []
  | w + 1 => (n % 256) :: natToLeBytes w (n / 256)

/-- Little-endian decoding of a byte list, modelling
u64::from_le_bytes / u16::from_le_bytes. -/
def leBytesToNat (bs : List Nat) : Nat :=
  bs.foldr (fun b acc => b + 256 * acc) 0

-- byte string "escrow"
def escrowSeedLit : List Nat := [101, 115, 99, 114, 111, 119]
-- byte string "config"
def configSeedLit : List Nat := [99, 111, 110, 102, 105, 103]

/-- The cross-program invocations and raw account operations an
instruction handler can issue; the trusted collaborators of the spec. -/
inductive Cpi where
  | transfer (srcAcct dstAcct auth : Address) (amount : Nat)
      (signerSeeds : Option (List (List Nat)))
  | mintTo (mint acct auth : Address) (amount : Nat)
      (signerSeeds : Option (List (List Nat)))
  | burn (acct mint auth : Address) (amount : Nat)
  | closeTokenAccount (acct dest auth : Address)
      (signerSeeds : Option (List (List Nat)))
  | createAccount (funder newAcct : Address) (lamports space : Nat)
      (owner : Address)
  | createAta (payer acct wallet mint : Address)
  | initMint2 (mint : Address) (decimals : Nat) (mintAuthority : Address)
  | initAccount3 (acct mint : Address) (owner : Address)
  | resizeAccount (acct : Address) (newLen : Nat)
deriving DecidableEq, Repr

/-- Model of the trusted rent sysvar collaborator:
Rent::get()?.try_minimum_balance(space). -/
def rentMinimumBalance (space : Nat) : Nat := (128 + space) * 6960

namespace Esc

/-- helpers.rs SignerAccount::check -/
def SignerAccount.check (a : AccountView) : Except ProgramError Unit :=
  if !a.isSigner then .error PinocchioError.NotSigner.toProgram
  else .ok ()

/-- helpers.rs SystemAccount::check -/
def SystemAccount.check (a : AccountView) : Except ProgramError Unit :=
  if a.owner ≠ systemProgramId then .error PinocchioError.InvalidOwner.toProgram
  else .ok ()

/-- helpers.rs MintAccount::check -/
def MintAccount.check (a : AccountView) : Except ProgramError Unit :=
  if a.owner ≠ tokenProgramId then .error PinocchioError.InvalidOwner.toProgram
  else if a.dataLen ≠ mintLen then .error PinocchioError.InvalidAccountData.toProgram
  else .ok ()

/-- helpers.rs TokenAccount::check (the private legacy-only struct) -/
def TokenAccount.check (a : AccountView) : Except ProgramError Unit :=
  if a.owner ≠ tokenProgramId then .error PinocchioError.InvalidOwner.toProgram
  else if a.dataLen ≠ tokenAccountLen then
    .error PinocchioError.InvalidAccountData.toProgram
  else .ok ()

/-- helpers.rs Mint2022Account::check -/
def Mint2022Account.check (a : AccountView) : Except ProgramError Unit :=
  if a.owner ≠ token2022ProgramId then .error PinocchioError.InvalidOwner.toProgram
  else if a.dataLen ≠ mintLen then
    if a.dataLen ≤ discOffset then .error PinocchioError.InvalidAccountData.toProgram
    else if a.data.getD discOffset 0 ≠ mintDisc then
      .error PinocchioError.InvalidAccountData.toProgram
    else .ok ()
  else .ok ()

/-- helpers.rs TokenAccount2022Account::check -/
def TokenAccount2022Account.check (a : AccountView) : Except ProgramError Unit :=
  if a.owner ≠ token2022ProgramId then .error PinocchioError.InvalidOwner.toProgram
  else if a.dataLen ≠ tokenAccountLen then
    if a.dataLen ≤ discOffset then .error PinocchioError.InvalidAccountData.toProgram
    else if a.data.getD discOffset 0 ≠ tokenAccountDisc then
      .error PinocchioError.InvalidAccountData.toProgram
    else .ok ()
  else .ok ()

/-- helpers.rs MintInterface::check -/
def MintInterface.check (a : AccountView) : Except ProgramError Unit :=
  if a.owner ≠ token2022ProgramId then
    if a.owner ≠ tokenProgramId then .error PinocchioError.InvalidOwner.toProgram
    else if a.dataLen ≠ mintLen then
      .error PinocchioError.InvalidAccountData.toProgram
    else .ok ()
  else
    if a.dataLen ≠ mintLen then
      if a.dataLen ≤ discOffset then .error PinocchioError.InvalidAccountData.toProgram
      else if a.data.getD discOffset 0 ≠ mintDisc then
        .error PinocchioError.InvalidAccountData.toProgram
      else .ok ()
    else .ok ()

/-- helpers.rs TokenAccountInterface::check -/
def TokenAccountInterface.check (a : AccountView) : Except ProgramError Unit :=
  if a.owner ≠ token2022ProgramId then
    if a.owner ≠ tokenProgramId then .error PinocchioError.InvalidOwner.toProgram
    else if a.dataLen ≠ tokenAccountLen then
      .error PinocchioError.InvalidAccountData.toProgram
    else .ok ()
  else
    if a.dataLen ≠ tokenAccountLen then
      if a.dataLen ≤ discOffset then .error PinocchioError.InvalidAccountData.toProgram
      else if a.data.getD discOffset 0 ≠ tokenAccountDisc then
        .error PinocchioError.InvalidAccountData.toProgram
      else .ok ()
    else .ok ()

/-- Modelled from the spec: the Escrow record layout (its state.rs is
not under src/): seed u64, maker Address, mint_a Address, mint_b
Address, receive u64, bump u8; LEN is the byte size of that layout. -/
structure EscrowRec where
  seed : Nat
  maker : Address
  mintA : Address
  mintB : Address
  receive : Nat
  bump : Nat
deriving DecidableEq, Repr

/-- Modelled from the spec: Escrow::LEN, the byte-exact record size
(8 + 32 + 32 + 32 + 8 + 1). -/
def escrowRecLen : Nat := 113

/-- helpers.rs ProgramAccount::check -/
def ProgramAccount.check (a : AccountView) : Except ProgramError Unit :=
  if a.owner ≠ escrowProgramId then .error PinocchioError.InvalidOwner.toProgram
  else if a.dataLen ≠ escrowRecLen then
    .error PinocchioError.InvalidAccountData.toProgram
  else .ok ()

/-- helpers.rs AssociatedTokenAccountCheck for AssociatedTokenAccount:
legacy TokenAccount::check then derive_address([authority,
token_program, mint], ata program) compared against the address. -/
def AssociatedTokenAccount.check (account authority mint tokenProgram : AccountView) :
    Except ProgramError Unit := do
  TokenAccount.check account
  if deriveAddress
      [authority.address.asArray, tokenProgram.address.asArray, mint.address.asArray]
      ataProgramId.asArray ≠ account.address then
    .error PinocchioError.InvalidAddress.toProgram
  else .ok ()

/-- helpers.rs MintInit::init for MintAccount: CreateAccount then
InitializeMint2, returned as the list of issued CPIs. -/
def MintAccount.init (account payer : AccountView) (decimals : Nat)
    (mintAuthority : Address) : Except ProgramError (List Cpi) :=
  .ok [Cpi.createAccount payer.address account.address
        (rentMinimumBalance mintLen) mintLen tokenProgramId,
       Cpi.initMint2 account.address decimals mintAuthority]

/-- helpers.rs MintInit::init_if_needed for MintAccount -/
def MintAccount.initIfNeeded (account payer : AccountView) (decimals : Nat)
    (mintAuthority : Address) : Except ProgramError (List Cpi) :=
  match MintAccount.check account with
  | .ok _ => .ok []
  | .error _ => MintAccount.init account payer decimals mintAuthority

/-- helpers.rs AssociatedTokenAccountInit::init for
AssociatedTokenAccount (the ata Create CPI). -/
def AssociatedTokenAccount.init
    (account mint payer owner _systemProgram _tokenProgram : AccountView) :
    Except ProgramError (List Cpi) :=
  .ok [Cpi.createAta payer.address account.address owner.address mint.address]

/-- helpers.rs AssociatedTokenAccountInit::init_if_needed: the check is
run with the payer as the ATA authority; on success nothing is done. -/
def AssociatedTokenAccount.initIfNeeded
    (account mint payer owner systemProgram tokenProgram : AccountView) :
    Except ProgramError (List Cpi) :=
  match AssociatedTokenAccount.check account payer mint tokenProgram with
  | .ok _ => .ok []
  | .error _ =>
      AssociatedTokenAccount.init account mint payer owner systemProgram tokenProgram

end Esc

/-- The ledger world the CPIs act on: token balances per token-account
address and liveness of accounts (a closed account no longer exists). -/
structure World where
  bal : Address → Nat
  alive : Address → Bool

/-- Effect of one trusted CPI on the ledger world. -/
def World.applyCpi (w : World) : Cpi → World
  | .transfer srcAcct dstAcct _ amount _ =>
      { w with bal := fun a =>
          if a = dstAcct then
            (if srcAcct = dstAcct then w.bal a else w.bal a + amount)
          else if a = srcAcct then w.bal a - amount
          else w.bal a }
  | .mintTo _ acct _ amount _ =>
      { w with bal := fun a => if a = acct then w.bal a + amount else w.bal a }
  | .burn acct _ _ amount =>
      { w with bal := fun a => if a = acct then w.bal a - amount else w.bal a }
  | .closeTokenAccount acct _ _ _ =>
      { bal := fun a => if a = acct then 0 else w.bal a,
        alive := fun a => if a = acct then false else w.alive a }
  | .createAccount _ newAcct _ _ _ =>
      { w with alive := fun a => if a = newAcct then true else w.alive a }
  | .createAta _ acct _ _ =>
      { w with alive := fun a => if a = acct then true else w.alive a }
  | _ => w

/-- Effect of a CPI list, in order. -/
def World.applyCpis (w : World) (cs : List Cpi) : World :=
  cs.foldl World.applyCpi w

namespace Esc

/-- refund.rs RefundAccounts -/
structure RefundAccounts where
  maker : AccountView
  escrow : AccountView
  mintA : AccountView
  vault : AccountView
  makerAtaA : AccountView
  systemProgram : AccountView
  tokenProgram : AccountView

/-- refund.rs RefundAccounts::try_from: the five account checks, in
source order. -/
def refundAccountChecks (a : RefundAccounts) : Except ProgramError Unit := do
  SignerAccount.check a.maker
  ProgramAccount.check a.escrow
  MintInterface.check a.mintA
  AssociatedTokenAccount.check a.vault a.escrow a.mintA a.tokenProgram
  AssociatedTokenAccount.check a.makerAtaA a.maker a.mintA a.tokenProgram

/-- refund.rs Refund::try_from: account checks then
AssociatedTokenAccount::init_if_needed on the maker's ATA. -/
def refundTryFrom (a : RefundAccounts) : Except ProgramError (List Cpi) := do
  refundAccountChecks a
  AssociatedTokenAccount.initIfNeeded a.makerAtaA a.mintA a.maker a.maker
    a.systemProgram a.tokenProgram

/-- refund.rs Refund::process.  The parsed escrow record (Escrow::load
of the record's data bytes) and the vault's token amount
(TokenAccount::from_account_view(vault).amount()) are passed as the
values read from account data.  The handler re-derives the escrow
address from (maker, seed, bump), then issues: a vault-to-maker
transfer of the whole vault amount signed with the escrow seeds, a
resize of the vault to 1 byte, and a token CloseAccount on the vault.
No operation closes the escrow record account itself. -/
def refundProcess (a : RefundAccounts) (rec : EscrowRec) (vaultAmount : Nat) :
    Except ProgramError (List Cpi) := do
  let escrowKey := deriveAddress
    [escrowSeedLit, a.maker.address.asArray, natToLeBytes 8 rec.seed, [rec.bump]]
    escrowProgramId.asArray
  if escrowKey ≠ a.escrow.address then
    .error ProgramError.InvalidAccountOwner
  else
    let escrowSeeds :=
      [escrowSeedLit, a.maker.address.asArray, natToLeBytes 8 rec.seed, [rec.bump]]
    .ok [Cpi.transfer a.vault.address a.makerAtaA.address a.escrow.address
          vaultAmount (some escrowSeeds),
         Cpi.resizeAccount a.vault.address 1,
         Cpi.closeTokenAccount a.vault.address a.makerAtaA.address
          a.escrow.address (some escrowSeeds)]

/-- The whole Refund instruction: try_from validation and
initialization, then process; the issued CPIs are concatenated. -/
def refundFull (a : RefundAccounts) (rec : EscrowRec) (vaultAmount : Nat) :
    Except ProgramError (List Cpi) := do
  let pre ← refundTryFrom a
  let eff ← refundProcess a rec vaultAmount
  .ok (pre ++ eff)

end Esc

namespace Amm

/-- utils.rs SignerAccount::check -/
def SignerAccount.check (a : AccountView) : Except ProgramError Unit :=
  if !a.isSigner then .error ProgramError.MissingRequiredSignature
  else .ok ()

/-- state.rs Config::LEN = size_of::<Config>() for the repr(C) struct
{ state u8, seed [u8;8], authority/mint_x/mint_y Address, fee [u8;2],
config_bump [u8;1] } (alignment 1). -/
def configLen : Nat := 108

/-- utils.rs DataAccount::check for ConfigAccount: owner must be the
AMM program, data length must equal size_of::<Config>(). -/
def ConfigAccount.check (a : AccountView) : Except ProgramError Unit :=
  if a.owner ≠ ammProgramId then .error ProgramError.InvalidAccountOwner
  else if a.dataLen ≠ configLen then .error ProgramError.InvalidAccountData
  else .ok ()

/-- utils.rs MintInterface::check (the AMM copy; its wrong-length and
wrong-discriminator paths return InvalidAccountOwner). -/
def MintInterface.check (a : AccountView) : Except ProgramError Unit :=
  if a.owner ≠ token2022ProgramId then
    if a.owner ≠ tokenProgramId then .error ProgramError.InvalidAccountOwner
    else if a.dataLen ≠ mintLen then .error ProgramError.InvalidAccountOwner
    else .ok ()
  else
    if a.dataLen ≠ mintLen then
      if a.dataLen ≤ discOffset then .error ProgramError.InvalidAccountOwner
      else if a.data.getD discOffset 0 ≠ mintDisc then
        .error ProgramError.InvalidAccountOwner
      else .ok ()
    else .ok ()

/-- utils.rs TokenInterface::check -/
def TokenInterface.check (a : AccountView) : Except ProgramError Unit :=
  if a.owner ≠ token2022ProgramId then
    if a.owner ≠ tokenProgramId then .error ProgramError.InvalidAccountOwner
    else if a.dataLen ≠ tokenAccountLen then
      .error ProgramError.InvalidAccountOwner
    else .ok ()
  else
    if a.dataLen ≠ tokenAccountLen then
      if a.dataLen ≤ discOffset then .error ProgramError.InvalidAccountData
      else if a.data.getD discOffset 0 ≠ tokenAccountDisc then
        .error ProgramError.InvalidAccountData
      else .ok ()
    else .ok ()

/-- utils.rs AssociatedTokenAccount::check: TokenInterface::check and
find_program_address([authority, token_program, mint], ata program)
compared against the account's address (InvalidSeeds on mismatch). -/
def AssociatedTokenAccount.check (account : AccountView)
    (authority mint tokenProgram : Address) : Except ProgramError Unit := do
  TokenInterface.check account
  if findProgramAddress
      [authority.asArray, tokenProgram.asArray, mint.asArray]
      ataProgramId.asArray ≠ account.address then
    .error ProgramError.InvalidSeeds
  else .ok ()

/-- utils.rs AssociatedTokenAccount::init (the ata Create CPI). -/
def AssociatedTokenAccount.init
    (account mint payer owner _systemProgram _tokenProgram : AccountView) :
    Except ProgramError (List Cpi) :=
  .ok [Cpi.createAta payer.address account.address owner.address mint.address]

/-- utils.rs AssociatedTokenAccount::init_if_needed: runs check with
the payer's address as the ATA authority; on success does nothing. -/
def AssociatedTokenAccount.initIfNeeded
    (account mint payer owner systemProgram tokenProgram : AccountView) :
    Except ProgramError (List Cpi) :=
  match AssociatedTokenAccount.check account payer.address mint.address
      tokenProgram.address with
  | .ok _ => .ok []
  | .error _ =>
      AssociatedTokenAccount.init account mint payer owner systemProgram tokenProgram

/-- state.rs Config: the parsed pool configuration record. -/
structure Config where
  state : Nat
  seed : Nat
  authority : List Nat
  mintX : Address
  mintY : Address
  fee : Nat
  configBump : List Nat
deriving DecidableEq, Repr

/-- state.rs AmmState discriminants. -/
def stUninit : Nat := 0
def stInit : Nat := 1
def stDisabled : Nat := 2
def stWithdrawOnly : Nat := 3

/-- state.rs Config::load, reduced to its two guards (length, then
owner); the unsafe byte reinterpretation that yields the Config value
is the separately passed parsed record. -/
def configLoadCheck (a : AccountView) : Except ProgramError Unit :=
  if a.dataLen ≠ configLen then .error ProgramError.InvalidAccountData
  else if a.owner ≠ ammProgramId then .error ProgramError.InvalidAccountOwner
  else .ok ()

/-- state.rs Config::set_state: rejects any state value greater than or
equal to AmmState::WithdrawOnly (3). -/
def Config.setState (c : Config) (s : Nat) : Except ProgramError Config :=
  if stWithdrawOnly ≤ s then .error ProgramError.InvalidAccountData
  else .ok { c with state := s }

/-- state.rs Config::set_fee: rejects fee ≥ 10_000 basis points. -/
def Config.setFee (c : Config) (fee : Nat) : Except ProgramError Config :=
  if 10000 ≤ fee then .error ProgramError.InvalidAccountData
  else .ok { c with fee := fee }

/-- state.rs Config::set_inner: set_state(Initialized) then the plain
field setters, with set_fee's validation. -/
def Config.setInner (c : Config) (seed : Nat) (authority : List Nat)
    (mintX mintY : Address) (fee : Nat) (configBump : List Nat) :
    Except ProgramError Config :=
  match c.setState stInit with
  | .error e => .error e
  | .ok c1 =>
    let c2 := { c1 with seed := seed, authority := authority,
                        mintX := mintX, mintY := mintY }
    match c2.setFee fee with
    | .error e => .error e
    | .ok c3 => .ok { c3 with configBump := configBump }

/-- state.rs Config::has_authority: reads the 32 authority bytes as
four u64 chunks; Some(authority) when any chunk is nonzero, None when
all are zero. -/
def Config.hasAuthority (c : Config) : Option (List Nat) :=
  let chunks := [leBytesToNat ((c.authority.drop 0).take 8),
                 leBytesToNat ((c.authority.drop 8).take 8),
                 leBytesToNat ((c.authority.drop 16).take 8),
                 leBytesToNat ((c.authority.drop 24).take 8)]
  if chunks.any (fun x => x ≠ 0) then some c.authority else none

/-- initialize.rs InitializeInstructionData, repr(C, packed):
seed u64 (offset 0), fee u16 (8), mint_x (10), mint_y (42),
config_bump (74), lp_bump (75), authority (76); 108 bytes with the
trailing authority, 76 without. -/
structure InitIxData where
  seed : Nat
  fee : Nat
  mintX : List Nat
  mintY : List Nat
  configBump : List Nat
  lpBump : List Nat
  authority : List Nat
deriving DecidableEq, Repr

/-- Instruction-data length with the trailing 32-byte authority field
(size_of of the packed struct). -/
def initDataLenWithAuthority : Nat := 108
/-- Instruction-data length without the trailing authority field. -/
def initDataLen : Nat := 76

/-- initialize.rs InitializeInstructionData::try_from: accepts exactly
the two lengths; when the authority is absent the buffer is extended
with 32 zero bytes before being read as the packed struct. -/
def InitIxData.tryFrom (d : List Nat) : Except ProgramError InitIxData :=
  if d.length = initDataLenWithAuthority then
    .ok { seed := leBytesToNat (d.take 8),
          fee := leBytesToNat ((d.drop 8).take 2),
          mintX := (d.drop 10).take 32,
          mintY := (d.drop 42).take 32,
          configBump := (d.drop 74).take 1,
          lpBump := (d.drop 75).take 1,
          authority := (d.drop 76).take 32 }
  else if d.length = initDataLen then
    .ok { seed := leBytesToNat (d.take 8),
          fee := leBytesToNat ((d.drop 8).take 2),
          mintX := (d.drop 10).take 32,
          mintY := (d.drop 42).take 32,
          configBump := (d.drop 74).take 1,
          lpBump := (d.drop 75).take 1,
          authority := List.replicate 32 0 }
  else .error ProgramError.InvalidInstructionData

/-- Errors of the external constant_product_curve crate. -/
inductive CurveError where
  | ZeroBalance
  | SlippageExceeded
  | Overflow
deriving DecidableEq, Repr

/-- Modelled from the spec: the external constant_product_curve crate's
ConstantProduct::xy_deposit_amounts_from_l (the crate is not part of
this repository's sources).  Per the spec, when the pool is not empty
the deposit amounts for a requested LP amount a are proportional to the
existing reserves via the constant-product relation: x·a/l and y·a/l
(integer floor; the crate's exact sub-unit rounding is not needed by
any claim).  A zero LP supply outside the empty-pool branch is a curve
error. -/
def xyDepositAmountsFromL (x y l a _precision : Nat) :
    Except CurveError (Nat × Nat) :=
  if l = 0 then .error CurveError.ZeroBalance
  else .ok (x * a / l, y * a / l)

/-- The external crate's ConstantProduct state: reserves and fee. -/
structure ConstantProduct where
  x : Nat
  y : Nat
  fee : Nat
deriving DecidableEq, Repr

/-- Modelled from the spec: ConstantProduct::init(x, y, l, fee, None)
of the external crate; a pool with an empty reserve cannot back a swap
and is a curve error. -/
def ConstantProduct.init (x y _l fee : Nat) : Except CurveError ConstantProduct :=
  if x = 0 ∨ y = 0 then .error CurveError.ZeroBalance
  else .ok { x := x, y := y, fee := fee }

/-- Which side the swapper deposits. -/
inductive LiquidityPair where
  | X
  | Y
deriving DecidableEq, Repr

/-- The external crate's swap result: the input-leg and output-leg
amounts. -/
structure SwapResult where
  deposit : Nat
  withdraw : Nat
deriving DecidableEq, Repr

/-- Modelled from the spec: the true computable swap output of the
external crate for depositing `amount` on side p against reserves
(x, y): the constant-product output floor(Y − X·Y/(X + amount)) with
the configured fee (basis points) deducted from the output leg. -/
def ConstantProduct.swapOutput (c : ConstantProduct) (p : LiquidityPair)
    (amount : Nat) : Nat :=
  let gross := match p with
    | .X => c.y - c.x * c.y / (c.x + amount)
    | .Y => c.x - c.y * c.x / (c.y + amount)
  gross - gross * c.fee / 10000

/-- Modelled from the spec: ConstantProduct::swap(p, amount, min) of
the external crate: computes the fee-adjusted output and fails with a
slippage error when it is below the caller's minimum. -/
def ConstantProduct.swap (c : ConstantProduct) (p : LiquidityPair)
    (amount min : Nat) : Except CurveError SwapResult :=
  let out := c.swapOutput p amount
  if out < min then .error CurveError.SlippageExceeded
  else .ok { deposit := amount, withdraw := out }

/-- swap.rs SwapAccounts -/
structure SwapAccounts where
  user : AccountView
  userXAta : AccountView
  userYAta : AccountView
  vaultX : AccountView
  vaultY : AccountView
  config : AccountView
  tokenProgram : AccountView

/-- swap.rs SwapInstructionData -/
structure SwapIxData where
  isX : Bool
  amount : Nat
  min : Nat
  expiration : Int

/-- swap.rs SwapAccounts::try_from checks. -/
def swapAccountChecks (a : SwapAccounts) : Except ProgramError Unit := do
  SignerAccount.check a.user
  ConfigAccount.check a.config

/-- Sequencing for a handler embedded as (result, issued CPIs): a
failing pre-step aborts with no CPIs issued. -/
def bindCpis (x : Except ProgramError Unit)
    (f : Unit → Except ProgramError Unit × List Cpi) :
    Except ProgramError Unit × List Cpi :=
  match x with
  | .error e => (.error e, [])
  | .ok u => f u

/-- swap.rs Swap::process.  cfg is the Config read by Config::load;
vx and vy are the live vault amounts read by
TokenAccount::from_account_view_unchecked.  Mirrors the source order:
config load, the four ATA checks, the Initialized-state gate, curve
construction and swap (curve errors mapped to Custom(1)), the
zero-leg guard, then the two transfers (user leg signed by the user,
pool leg signed with the config seeds). -/
def swapProcess (a : SwapAccounts) (cfg : Config) (vx vy : Nat)
    (d : SwapIxData) : Except ProgramError Unit × List Cpi :=
  bindCpis (configLoadCheck a.config) fun _ =>
  bindCpis (AssociatedTokenAccount.check a.vaultX a.config.address cfg.mintX
    a.tokenProgram.address) fun _ =>
  bindCpis (AssociatedTokenAccount.check a.vaultY a.config.address cfg.mintY
    a.tokenProgram.address) fun _ =>
  bindCpis (AssociatedTokenAccount.check a.userXAta a.user.address cfg.mintX
    a.tokenProgram.address) fun _ =>
  bindCpis (AssociatedTokenAccount.check a.userYAta a.user.address cfg.mintY
    a.tokenProgram.address) fun _ =>
  if cfg.state ≠ stInit then (.error ProgramError.InvalidAccountData, [])
  else
    match ConstantProduct.init vx vy vx cfg.fee with
    | .error _ => (.error (ProgramError.Custom 1), [])
    | .ok curve =>
      let p := if d.isX then LiquidityPair.X else LiquidityPair.Y
      match curve.swap p d.amount d.min with
      | .error _ => (.error (ProgramError.Custom 1), [])
      | .ok r =>
        if r.deposit = 0 ∨ r.withdraw = 0 then
          (.error ProgramError.InvalidArgument, [])
        else
          let configSeeds := [configSeedLit, natToLeBytes 8 cfg.seed,
            cfg.mintX.asArray, cfg.mintY.asArray, cfg.configBump]
          if d.isX then
            (.ok (), [Cpi.transfer a.userXAta.address a.vaultX.address
                        a.user.address r.deposit none,
                      Cpi.transfer a.vaultY.address a.userYAta.address
                        a.config.address r.withdraw (some configSeeds)])
          else
            (.ok (), [Cpi.transfer a.userYAta.address a.vaultY.address
                        a.user.address r.deposit none,
                      Cpi.transfer a.vaultX.address a.userXAta.address
                        a.config.address r.withdraw (some configSeeds)])

/-- deposit.rs DepositAccounts -/
structure DepositAccounts where
  user : AccountView
  mintLp : AccountView
  vaultX : AccountView
  vaultY : AccountView
  userXAta : AccountView
  userYAta : AccountView
  userLpAta : AccountView
  config : AccountView
  tokenProgram : AccountView

/-- deposit.rs DepositInstructionData -/
structure DepositIxData where
  amount : Nat
  maxX : Nat
  maxY : Nat
  expiration : Int

/-- deposit.rs DepositAccounts::try_from checks. -/
def depositAccountChecks (a : DepositAccounts) : Except ProgramError Unit := do
  SignerAccount.check a.user
  MintInterface.check a.mintLp
  ConfigAccount.check a.config

/-- deposit.rs Deposit::process.  cfg is the Config read by
Config::load; lpSupply, vx, vy are the live LP supply and vault
amounts.  Mirrors the source order: config load, the five ATA checks,
the empty-pool branch (supply and both reserves zero takes
(max_x, max_y) directly, otherwise the curve amounts with curve errors
mapped to InvalidArgument), the slippage guard against
(max_x, max_y), then the two user-to-vault transfers and the LP
MintTo — all three issued with the config account as authority, signed
with the seeds [b"config", user address, seed, config_bump]. -/
def depositProcess (a : DepositAccounts) (cfg : Config) (lpSupply vx vy : Nat)
    (d : DepositIxData) : Except ProgramError Unit × List Cpi :=
  bindCpis (configLoadCheck a.config) fun _ =>
  bindCpis (AssociatedTokenAccount.check a.vaultX a.config.address cfg.mintX
    a.tokenProgram.address) fun _ =>
  bindCpis (AssociatedTokenAccount.check a.vaultY a.config.address cfg.mintY
    a.tokenProgram.address) fun _ =>
  bindCpis (AssociatedTokenAccount.check a.userXAta a.user.address cfg.mintX
    a.tokenProgram.address) fun _ =>
  bindCpis (AssociatedTokenAccount.check a.userYAta a.user.address cfg.mintY
    a.tokenProgram.address) fun _ =>
  bindCpis (AssociatedTokenAccount.check a.userLpAta a.user.address
    a.mintLp.address a.tokenProgram.address) fun _ =>
  let amounts : Except ProgramError (Nat × Nat) :=
    if lpSupply = 0 ∧ vx = 0 ∧ vy = 0 then .ok (d.maxX, d.maxY)
    else
      match xyDepositAmountsFromL vx vy lpSupply d.amount 6 with
      | .error _ => .error ProgramError.InvalidArgument
      | .ok xy => .ok xy
  match amounts with
  | .error e => (.error e, [])
  | .ok (x, y) =>
    if ¬ (x ≤ d.maxX ∧ y ≤ d.maxY) then (.error ProgramError.InvalidArgument, [])
    else
      let configSeeds := [configSeedLit, a.user.address.asArray,
        natToLeBytes 8 cfg.seed, cfg.configBump]
      (.ok (), [Cpi.transfer a.userXAta.address a.vaultX.address
                  a.config.address x (some configSeeds),
                Cpi.transfer a.userYAta.address a.vaultY.address
                  a.config.address y (some configSeeds),
                Cpi.mintTo a.mintLp.address a.userLpAta.address
                  a.config.address d.amount (some configSeeds)])

end Amm

namespace Amm

/-- The public Config mutators (state.rs): set_inner, set_state,
set_fee. -/
inductive ConfigOp where
  | opSetInner (seed : Nat) (authority : List Nat) (mintX mintY : Address)
      (fee : Nat) (configBump : List Nat)
  | opSetState (s : Nat)
  | opSetFee (f : Nat)

/-- Apply one public mutator. -/
def applyConfigOp (c : Config) : ConfigOp → Except ProgramError Config
  | .opSetInner seed authority mintX mintY fee configBump =>
      c.setInner seed authority mintX mintY fee configBump
  | .opSetState s => c.setState s
  | .opSetFee f => c.setFee f

/-- Apply a sequence of public mutators, stopping at the first error. -/
def applyConfigOps (c : Config) : List ConfigOp → Except ProgramError Config
  | [] => .ok c
  | op :: ops =>
    match applyConfigOp c op with
    | .error e => .error e
    | .ok c' => applyConfigOps c' ops

/-- set_state stores exactly the accepted value. -/
theorem Config.setState_ok (c : Config) (s : Nat) (c' : Config)
    (h : c.setState s = .ok c') : c'.state = s := by
  simp only [Config.setState, stWithdrawOnly] at h
  split at h
  · simp at h
  · simp only [Except.ok.injEq] at h
    subst h
    rfl

/-- set_fee leaves the state field alone. -/
theorem Config.setFee_ok (c : Config) (f : Nat) (c' : Config)
    (h : c.setFee f = .ok c') : c'.state = c.state := by
  simp only [Config.setFee] at h
  split at h
  · simp at h
  · simp only [Except.ok.injEq] at h
    subst h
    rfl

/-- set_inner stores the Initialized state. -/
theorem Config.setInner_ok (c : Config) (seed : Nat) (authority : List Nat)
    (mintX mintY : Address) (fee : Nat) (configBump : List Nat) (c' : Config)
    (h : c.setInner seed authority mintX mintY fee configBump = .ok c') :
    c'.state = 1 := by
  simp only [Config.setInner] at h
  split at h
  · simp at h
  · rename_i c1 heq1
    split at h
    · simp at h
    · rename_i c3 heq3
      simp only [Except.ok.injEq] at h
      subst h
      have h3 := Config.setFee_ok _ _ _ heq3
      have h1 := Config.setState_ok _ _ _ heq1
      simpa [h3] using h1

/-- One successful public mutation keeps the stored state below
WithdrawOnly (3). -/
theorem applyConfigOp_state_lt (c : Config) (op : ConfigOp) (c' : Config)
    (hc : c.state < 3) (h : applyConfigOp c op = .ok c') : c'.state < 3 := by
  cases op with
  | opSetInner seed authority mintX mintY fee configBump =>
      have := Config.setInner_ok c seed authority mintX mintY fee configBump c' h
      omega
  | opSetState s =>
      simp only [applyConfigOp, Config.setState, stWithdrawOnly] at h
      split at h
      · simp at h
      · rename_i hns
        simp only [Except.ok.injEq] at h
        subst h
        show s < 3
        omega
  | opSetFee f =>
      have := Config.setFee_ok c f c' h
      omega

end Amm

/-- C10: every state value stored through the public Config setters is
one of Uninitialized (0), Initialized (1), Disabled (2): set_state
rejects any value ≥ 3, so after any successful sequence of set_inner /
set_state / set_fee starting from a config whose state is below 3, the
stored state stays below 3 and WithdrawOnly (3) is never stored. -/
theorem config_state_never_withdrawOnly :
    (∀ (c : Amm.Config) (s : Nat), 3 ≤ s →
        c.setState s = .error ProgramError.InvalidAccountData) ∧
    (∀ (ops : List Amm.ConfigOp) (c c' : Amm.Config), c.state < 3 →
        Amm.applyConfigOps c ops = .ok c' → c'.state < 3) := by
  constructor
  · intro c s hs
    simp only [Amm.Config.setState, Amm.stWithdrawOnly]
    rw [if_pos hs]
  · intro ops
    induction ops with
    | nil =>
        intro c c' hc h
        simp only [Amm.applyConfigOps, Except.ok.injEq] at h
        subst h
        exact hc
    | cons op ops ih =>
        intro c c' hc h
        simp only [Amm.applyConfigOps] at h
        cases hop : Amm.applyConfigOp c op with
        | error e => rw [hop] at h; simp at h
        | ok cmid =>
            rw [hop] at h
            exact ih cmid c' (Amm.applyConfigOp_state_lt c op cmid hc hop) h

/-- Witness for C10 at concrete inputs: set_state 3 on a concrete
config errors, and a concrete mutation sequence starting from state 0
ends below 3. -/
theorem config_state_never_withdrawOnly_witness :
    (Amm.Config.setState ⟨0, 0, List.replicate 32 0, .raw [21], .raw [22], 30, [254]⟩ 3
      = .error ProgramError.InvalidAccountData) ∧
    ((⟨1, 7, List.replicate 32 0, .raw [21], .raw [22], 25, [254]⟩ : Amm.Config).state < 3) := by
  refine ⟨config_state_never_withdrawOnly.1 _ 3 (by decide), ?_⟩
  have h := config_state_never_withdrawOnly.2
    [Amm.ConfigOp.opSetInner 7 (List.replicate 32 0) (.raw [21]) (.raw [22]) 25 [254]]
    ⟨0, 0, List.replicate 32 0, .raw [21], .raw [22], 30, [254]⟩
    ⟨1, 7, List.replicate 32 0, .raw [21], .raw [22], 25, [254]⟩
    (by decide) rfl
  exact h

/-- C8: InitializeInstructionData::try_from accepts exactly the two
data lengths, 108 bytes (with the trailing 32-byte authority) and 76
bytes (without), zero-fills the authority when absent, keeps the
trailing 32 bytes as authority when present, and rejects every other
length; Config::has_authority reports no privileged authority for an
all-zero stored authority. -/
theorem initData_two_lengths_zero_fill :
    (∀ d : List Nat, (Amm.InitIxData.tryFrom d).isOk ↔
        (d.length = Amm.initDataLenWithAuthority ∨ d.length = Amm.initDataLen)) ∧
    (∀ (d : List Nat) (r : Amm.InitIxData), d.length = Amm.initDataLen →
        Amm.InitIxData.tryFrom d = .ok r → r.authority = List.replicate 32 0) ∧
    (∀ (d : List Nat) (r : Amm.InitIxData),
        d.length = Amm.initDataLenWithAuthority →
        Amm.InitIxData.tryFrom d = .ok r → r.authority = (d.drop 76).take 32) ∧
    (∀ c : Amm.Config, c.authority = List.replicate 32 0 →
        c.hasAuthority = none) := by
  refine ⟨?_, ?_, ?_, ?_⟩
  · intro d
    simp only [Amm.InitIxData.tryFrom]
    split
    · rename_i h
      simp [h, Except.isOk, Except.toBool]
    · split
      · rename_i h1 h2
        simp [h2, Except.isOk, Except.toBool]
      · rename_i h1 h2
        simp [h1, h2, Except.isOk, Except.toBool]
  · intro d r hlen h
    have hne : d.length ≠ Amm.initDataLenWithAuthority := by
      rw [hlen]; decide
    simp only [Amm.InitIxData.tryFrom, if_neg hne, if_pos hlen,
      Except.ok.injEq] at h
    subst h
    rfl
  · intro d r hlen h
    simp only [Amm.InitIxData.tryFrom, if_pos hlen, Except.ok.injEq] at h
    subst h
    rfl
  · intro c hc
    simp only [Amm.Config.hasAuthority, hc]
    decide

/-- Witness for C8: a 76-byte buffer parses with an all-zero authority
that has_authority reports as absent, a 108-byte buffer parses keeping
its trailing authority bytes, and an 80-byte buffer is rejected. -/
theorem initData_two_lengths_zero_fill_witness :
    (Amm.InitIxData.tryFrom (List.replicate 76 0)).isOk ∧
    ((⟨0, 0, List.replicate 32 0, List.replicate 32 0, [0], [0],
        List.replicate 32 0⟩ : Amm.InitIxData).authority = List.replicate 32 0) ∧
    ((Amm.InitIxData.tryFrom (List.replicate 108 3)).isOk) ∧
    ¬ (Amm.InitIxData.tryFrom (List.replicate 80 0)).isOk ∧
    Amm.Config.hasAuthority
      ⟨1, 9, List.replicate 32 0, .raw [21], .raw [22], 30, [254]⟩ = none := by
  refine ⟨?_, ?_, ?_, ?_, ?_⟩
  · exact (initData_two_lengths_zero_fill.1 _).mpr
      (Or.inr (by simp [Amm.initDataLen]))
  · exact initData_two_lengths_zero_fill.2.1 (List.replicate 76 0) _
      (by simp [Amm.initDataLen]) rfl
  · exact (initData_two_lengths_zero_fill.1 _).mpr
      (Or.inl (by simp [Amm.initDataLenWithAuthority]))
  · intro h
    have := (initData_two_lengths_zero_fill.1 _).mp h
    simp [Amm.initDataLenWithAuthority, Amm.initDataLen] at this
  · exact initData_two_lengths_zero_fill.2.2.2 _ rfl

/-- The combined effect of calling an initializer twice in succession:
both runs must succeed and their issued CPIs accumulate. -/
def runTwice (f : Except ProgramError (List Cpi)) : Except ProgramError (List Cpi) :=
  match f with
  | .error e => .error e
  | .ok l1 =>
    match f with
    | .error e => .error e
    | .ok l2 => .ok (l1 ++ l2)

/-- C9: whenever the matching validity check succeeds, init_if_needed
is a no-op — it issues no CPI at all (so the account is untouched) and
succeeds; consequently running it twice in succession has exactly the
effect of running it once.  Stated for the three cited initializers:
the escrow MintAccount initializer, the escrow associated-token-account
initializer, and the AMM associated-token-account initializer. -/
theorem initIfNeeded_noop_on_check_ok :
    (∀ (a payer : AccountView) (dec : Nat) (auth : Address),
        Esc.MintAccount.check a = .ok () →
        Esc.MintAccount.initIfNeeded a payer dec auth = .ok [] ∧
        runTwice (Esc.MintAccount.initIfNeeded a payer dec auth) =
          Esc.MintAccount.initIfNeeded a payer dec auth) ∧
    (∀ acct mint payer owner sysp tokp : AccountView,
        Esc.AssociatedTokenAccount.check acct payer mint tokp = .ok () →
        Esc.AssociatedTokenAccount.initIfNeeded acct mint payer owner sysp tokp
          = .ok [] ∧
        runTwice (Esc.AssociatedTokenAccount.initIfNeeded acct mint payer owner sysp tokp)
          = Esc.AssociatedTokenAccount.initIfNeeded acct mint payer owner sysp tokp) ∧
    (∀ acct mint payer owner sysp tokp : AccountView,
        Amm.AssociatedTokenAccount.check acct payer.address mint.address
          tokp.address = .ok () →
        Amm.AssociatedTokenAccount.initIfNeeded acct mint payer owner sysp tokp
          = .ok [] ∧
        runTwice (Amm.AssociatedTokenAccount.initIfNeeded acct mint payer owner sysp tokp)
          = Amm.AssociatedTokenAccount.initIfNeeded acct mint payer owner sysp tokp) := by
  refine ⟨?_, ?_, ?_⟩
  · intro a payer dec auth h
    have hn : Esc.MintAccount.initIfNeeded a payer dec auth = .ok [] := by
      simp [Esc.MintAccount.initIfNeeded, h]
    exact ⟨hn, by simp [hn, runTwice]⟩
  · intro acct mint payer owner sysp tokp h
    have hn : Esc.AssociatedTokenAccount.initIfNeeded acct mint payer owner sysp tokp
        = .ok [] := by
      simp [Esc.AssociatedTokenAccount.initIfNeeded, h]
    exact ⟨hn, by simp [hn, runTwice]⟩
  · intro acct mint payer owner sysp tokp h
    have hn : Amm.AssociatedTokenAccount.initIfNeeded acct mint payer owner sysp tokp
        = .ok [] := by
      simp [Amm.AssociatedTokenAccount.initIfNeeded, h]
    exact ⟨hn, by simp [hn, runTwice]⟩

-- Concrete fixtures exercising the three initializers on accounts
-- whose checks succeed.
def fixPayer : AccountView := ⟨.raw [51], systemProgramId, true, []⟩
def fixLegacyMint : AccountView :=
  ⟨.raw [52], tokenProgramId, false, List.replicate 82 0⟩
def fixTokenProgramAcct : AccountView := ⟨tokenProgramId, .raw [0], false, []⟩
def fixSystemProgramAcct : AccountView := ⟨systemProgramId, .raw [0], false, []⟩
def fixAtaOfPayer : AccountView :=
  ⟨.derived [[51], [1], [52]] [3], tokenProgramId, false, List.replicate 165 0⟩

/-- Witness for C9: the three initializers at concrete accounts whose
checks succeed issue no CPIs and are idempotent. -/
theorem initIfNeeded_noop_on_check_ok_witness :
    (Esc.MintAccount.initIfNeeded fixLegacyMint fixPayer 6 (.raw [51]) = .ok [] ∧
      runTwice (Esc.MintAccount.initIfNeeded fixLegacyMint fixPayer 6 (.raw [51])) =
        Esc.MintAccount.initIfNeeded fixLegacyMint fixPayer 6 (.raw [51])) ∧
    (Esc.AssociatedTokenAccount.initIfNeeded fixAtaOfPayer fixLegacyMint fixPayer
        fixPayer fixSystemProgramAcct fixTokenProgramAcct = .ok [] ∧
      runTwice (Esc.AssociatedTokenAccount.initIfNeeded fixAtaOfPayer fixLegacyMint
          fixPayer fixPayer fixSystemProgramAcct fixTokenProgramAcct) =
        Esc.AssociatedTokenAccount.initIfNeeded fixAtaOfPayer fixLegacyMint fixPayer
          fixPayer fixSystemProgramAcct fixTokenProgramAcct) ∧
    (Amm.AssociatedTokenAccount.initIfNeeded fixAtaOfPayer fixLegacyMint fixPayer
        fixPayer fixSystemProgramAcct fixTokenProgramAcct = .ok [] ∧
      runTwice (Amm.AssociatedTokenAccount.initIfNeeded fixAtaOfPayer fixLegacyMint
          fixPayer fixPayer fixSystemProgramAcct fixTokenProgramAcct) =
        Amm.AssociatedTokenAccount.initIfNeeded fixAtaOfPayer fixLegacyMint fixPayer
          fixPayer fixSystemProgramAcct fixTokenProgramAcct) :=
  ⟨initIfNeeded_noop_on_check_ok.1 fixLegacyMint fixPayer 6 (.raw [51]) rfl,
   initIfNeeded_noop_on_check_ok.2.1 fixAtaOfPayer fixLegacyMint fixPayer fixPayer
     fixSystemProgramAcct fixTokenProgramAcct rfl,
   initIfNeeded_noop_on_check_ok.2.2 fixAtaOfPayer fixLegacyMint fixPayer fixPayer
     fixSystemProgramAcct fixTokenProgramAcct rfl⟩

/-- C6: every account validator that constrains the owning program
rejects an account owned by any other program with its program's
invalid-owner error — the escrow validators with
PinocchioError::InvalidOwner (Custom 2), the AMM validators with
ProgramError::InvalidAccountOwner — for every data content, i.e. even
when the data length is the expected one (the owner test precedes the
length test in each validator). -/
theorem foreign_owner_rejected_invalid_owner :
    (∀ a : AccountView, a.owner ≠ tokenProgramId →
        Esc.MintAccount.check a = .error PinocchioError.InvalidOwner.toProgram) ∧
    (∀ a : AccountView, a.owner ≠ tokenProgramId →
        Esc.TokenAccount.check a = .error PinocchioError.InvalidOwner.toProgram) ∧
    (∀ a : AccountView, a.owner ≠ token2022ProgramId →
        Esc.Mint2022Account.check a = .error PinocchioError.InvalidOwner.toProgram) ∧
    (∀ a : AccountView, a.owner ≠ token2022ProgramId →
        Esc.TokenAccount2022Account.check a
          = .error PinocchioError.InvalidOwner.toProgram) ∧
    (∀ a : AccountView, a.owner ≠ tokenProgramId → a.owner ≠ token2022ProgramId →
        Esc.MintInterface.check a = .error PinocchioError.InvalidOwner.toProgram) ∧
    (∀ a : AccountView, a.owner ≠ tokenProgramId → a.owner ≠ token2022ProgramId →
        Esc.TokenAccountInterface.check a
          = .error PinocchioError.InvalidOwner.toProgram) ∧
    (∀ a : AccountView, a.owner ≠ escrowProgramId →
        Esc.ProgramAccount.check a = .error PinocchioError.InvalidOwner.toProgram) ∧
    (∀ a : AccountView, a.owner ≠ systemProgramId →
        Esc.SystemAccount.check a = .error PinocchioError.InvalidOwner.toProgram) ∧
    (∀ a : AccountView, a.owner ≠ ammProgramId →
        Amm.ConfigAccount.check a = .error ProgramError.InvalidAccountOwner) ∧
    (∀ a : AccountView, a.owner ≠ tokenProgramId → a.owner ≠ token2022ProgramId →
        Amm.MintInterface.check a = .error ProgramError.InvalidAccountOwner) ∧
    (∀ a : AccountView, a.owner ≠ tokenProgramId → a.owner ≠ token2022ProgramId →
        Amm.TokenInterface.check a = .error ProgramError.InvalidAccountOwner) := by
  refine ⟨?_, ?_, ?_, ?_, ?_, ?_, ?_, ?_, ?_, ?_, ?_⟩
  · intro a h; simp [Esc.MintAccount.check, h]
  · intro a h; simp [Esc.TokenAccount.check, h]
  · intro a h; simp [Esc.Mint2022Account.check, h]
  · intro a h; simp [Esc.TokenAccount2022Account.check, h]
  · intro a h1 h2; simp [Esc.MintInterface.check, h1, h2]
  · intro a h1 h2; simp [Esc.TokenAccountInterface.check, h1, h2]
  · intro a h; simp [Esc.ProgramAccount.check, h]
  · intro a h; simp [Esc.SystemAccount.check, h]
  · intro a h; simp [Amm.ConfigAccount.check, h]
  · intro a h1 h2; simp [Amm.MintInterface.check, h1, h2]
  · intro a h1 h2; simp [Amm.TokenInterface.check, h1, h2]

-- A foreign program id and foreign-owned accounts whose data lengths
-- are nevertheless the expected ones.
def foreignProgId : Address := .raw [99]
def foreignMintSized : AccountView :=
  ⟨.raw [60], foreignProgId, false, List.replicate 82 0⟩
def foreignTokenSized : AccountView :=
  ⟨.raw [61], foreignProgId, false, List.replicate 165 0⟩
def foreignConfigSized : AccountView :=
  ⟨.raw [62], foreignProgId, false, List.replicate 108 0⟩
def foreignEscrowSized : AccountView :=
  ⟨.raw [63], foreignProgId, false, List.replicate 113 0⟩

/-- Witness for C6 at concrete foreign-owned accounts of the correct
data lengths. -/
theorem foreign_owner_rejected_invalid_owner_witness :
    Esc.MintAccount.check foreignMintSized
      = .error PinocchioError.InvalidOwner.toProgram ∧
    Esc.TokenAccount.check foreignTokenSized
      = .error PinocchioError.InvalidOwner.toProgram ∧
    Esc.Mint2022Account.check foreignMintSized
      = .error PinocchioError.InvalidOwner.toProgram ∧
    Esc.TokenAccount2022Account.check foreignTokenSized
      = .error PinocchioError.InvalidOwner.toProgram ∧
    Esc.MintInterface.check foreignMintSized
      = .error PinocchioError.InvalidOwner.toProgram ∧
    Esc.TokenAccountInterface.check foreignTokenSized
      = .error PinocchioError.InvalidOwner.toProgram ∧
    Esc.ProgramAccount.check foreignEscrowSized
      = .error PinocchioError.InvalidOwner.toProgram ∧
    Esc.SystemAccount.check foreignMintSized
      = .error PinocchioError.InvalidOwner.toProgram ∧
    Amm.ConfigAccount.check foreignConfigSized
      = .error ProgramError.InvalidAccountOwner ∧
    Amm.MintInterface.check foreignMintSized
      = .error ProgramError.InvalidAccountOwner ∧
    Amm.TokenInterface.check foreignTokenSized
      = .error ProgramError.InvalidAccountOwner :=
  ⟨foreign_owner_rejected_invalid_owner.1 _ (by decide),
   foreign_owner_rejected_invalid_owner.2.1 _ (by decide),
   foreign_owner_rejected_invalid_owner.2.2.1 _ (by decide),
   foreign_owner_rejected_invalid_owner.2.2.2.1 _ (by decide),
   foreign_owner_rejected_invalid_owner.2.2.2.2.1 _ (by decide) (by decide),
   foreign_owner_rejected_invalid_owner.2.2.2.2.2.1 _ (by decide) (by decide),
   foreign_owner_rejected_invalid_owner.2.2.2.2.2.2.1 _ (by decide),
   foreign_owner_rejected_invalid_owner.2.2.2.2.2.2.2.1 _ (by decide),
   foreign_owner_rejected_invalid_owner.2.2.2.2.2.2.2.2.1 _ (by decide),
   foreign_owner_rejected_invalid_owner.2.2.2.2.2.2.2.2.2.1 _ (by decide) (by decide),
   foreign_owner_rejected_invalid_owner.2.2.2.2.2.2.2.2.2.2 _ (by decide) (by decide)⟩

/-- Proof helper: the common control-flow skeleton shared by the four
interface checks (they differ only in the expected length, the
discriminator tag, and the error values, none of which matter for
acceptance). -/
def ifaceCheck (LEN disc : Nat) (eOwner eLen eShort eDisc : ProgramError)
    (a : AccountView) : Except ProgramError Unit :=
  if a.owner ≠ token2022ProgramId then
    if a.owner ≠ tokenProgramId then .error eOwner
    else if a.dataLen ≠ LEN then .error eLen
    else .ok ()
  else
    if a.dataLen ≠ LEN then
      if a.dataLen ≤ discOffset then .error eShort
      else if a.data.getD discOffset 0 ≠ disc then .error eDisc
      else .ok ()
    else .ok ()

theorem escMintInterface_eq_iface :
    Esc.MintInterface.check = ifaceCheck mintLen mintDisc
      PinocchioError.InvalidOwner.toProgram
      PinocchioError.InvalidAccountData.toProgram
      PinocchioError.InvalidAccountData.toProgram
      PinocchioError.InvalidAccountData.toProgram := rfl

theorem escTokenAccountInterface_eq_iface :
    Esc.TokenAccountInterface.check = ifaceCheck tokenAccountLen tokenAccountDisc
      PinocchioError.InvalidOwner.toProgram
      PinocchioError.InvalidAccountData.toProgram
      PinocchioError.InvalidAccountData.toProgram
      PinocchioError.InvalidAccountData.toProgram := rfl

theorem ammMintInterface_eq_iface :
    Amm.MintInterface.check = ifaceCheck mintLen mintDisc
      ProgramError.InvalidAccountOwner ProgramError.InvalidAccountOwner
      ProgramError.InvalidAccountOwner ProgramError.InvalidAccountOwner := rfl

theorem ammTokenInterface_eq_iface :
    Amm.TokenInterface.check = ifaceCheck tokenAccountLen tokenAccountDisc
      ProgramError.InvalidAccountOwner ProgramError.InvalidAccountOwner
      ProgramError.InvalidAccountData ProgramError.InvalidAccountData := rfl

/-- Acceptance characterization of the shared skeleton over accounts
owned by one of the two token programs. -/
theorem ifaceCheck_ok_iff (LEN disc : Nat) (e1 e2 e3 e4 : ProgramError)
    (a : AccountView)
    (h : a.owner = tokenProgramId ∨ a.owner = token2022ProgramId) :
    (ifaceCheck LEN disc e1 e2 e3 e4 a = .ok () ↔
      (a.dataLen = LEN ∨ (a.owner = token2022ProgramId ∧ a.dataLen ≠ LEN ∧
        discOffset < a.dataLen ∧ a.data.getD discOffset 0 = disc))) := by
  rcases h with h | h
  · have hne : a.owner ≠ token2022ProgramId := by rw [h]; decide
    have hok : ¬ (a.owner ≠ tokenProgramId) := by simp [h]
    simp only [ifaceCheck, if_pos hne, if_neg hok]
    by_cases hl : a.dataLen = LEN
    · rw [if_neg (not_not_intro hl)]
      exact iff_of_true rfl (Or.inl hl)
    · rw [if_pos hl]
      refine iff_of_false (by simp) ?_
      rintro (hc | ⟨hc, -⟩)
      · exact hl hc
      · exact hne hc
  · have hne : ¬ (a.owner ≠ token2022ProgramId) := by simp [h]
    simp only [ifaceCheck, if_neg hne]
    by_cases hl : a.dataLen = LEN
    · rw [if_neg (not_not_intro hl)]
      exact iff_of_true rfl (Or.inl hl)
    · rw [if_pos hl]
      by_cases hs : a.dataLen ≤ discOffset
      · rw [if_pos hs]
        refine iff_of_false (by simp) ?_
        rintro (hc | ⟨-, -, hlt, -⟩)
        · exact hl hc
        · omega
      · rw [if_neg hs]
        by_cases hd : a.data.getD discOffset 0 = disc
        · rw [if_neg (not_not_intro hd)]
          exact iff_of_true rfl (Or.inr ⟨h, hl, by omega, hd⟩)
        · rw [if_pos hd]
          refine iff_of_false (by simp) ?_
          rintro (hc | ⟨-, -, -, hc⟩)
          · exact hl hc
          · exact hd hc

/-- C5: each of the four mint / token-account interface validators
accepts an account owned by one of the two token programs exactly when
the data length equals the exact legacy struct size (82 for a mint,
165 for a token account), or the account is owned by the extended 2022
token program, has a different length exceeding 165, and carries the
expected one-byte type tag (0x01 mint, 0x02 token account) at offset
165; every other shape is rejected. -/
theorem interface_checks_accept_exact_shape (a : AccountView)
    (h : a.owner = tokenProgramId ∨ a.owner = token2022ProgramId) :
    (Esc.MintInterface.check a = .ok () ↔
      (a.dataLen = mintLen ∨ (a.owner = token2022ProgramId ∧ a.dataLen ≠ mintLen ∧
        discOffset < a.dataLen ∧ a.data.getD discOffset 0 = mintDisc))) ∧
    (Esc.TokenAccountInterface.check a = .ok () ↔
      (a.dataLen = tokenAccountLen ∨
        (a.owner = token2022ProgramId ∧ a.dataLen ≠ tokenAccountLen ∧
          discOffset < a.dataLen ∧ a.data.getD discOffset 0 = tokenAccountDisc))) ∧
    (Amm.MintInterface.check a = .ok () ↔
      (a.dataLen = mintLen ∨ (a.owner = token2022ProgramId ∧ a.dataLen ≠ mintLen ∧
        discOffset < a.dataLen ∧ a.data.getD discOffset 0 = mintDisc))) ∧
    (Amm.TokenInterface.check a = .ok () ↔
      (a.dataLen = tokenAccountLen ∨
        (a.owner = token2022ProgramId ∧ a.dataLen ≠ tokenAccountLen ∧
          discOffset < a.dataLen ∧ a.data.getD discOffset 0 = tokenAccountDisc))) := by
  refine ⟨?_, ?_, ?_, ?_⟩
  · rw [escMintInterface_eq_iface]
    exact ifaceCheck_ok_iff _ _ _ _ _ _ a h
  · rw [escTokenAccountInterface_eq_iface]
    exact ifaceCheck_ok_iff _ _ _ _ _ _ a h
  · rw [ammMintInterface_eq_iface]
    exact ifaceCheck_ok_iff _ _ _ _ _ _ a h
  · rw [ammTokenInterface_eq_iface]
    exact ifaceCheck_ok_iff _ _ _ _ _ _ a h

-- A 2022-owned token account with trailing extension bytes and the
-- token-account tag at offset 165, and a too-short 2022-owned account.
def ext2022TokenAcct : AccountView :=
  ⟨.raw [70], token2022ProgramId, false,
    List.replicate 165 0 ++ 2 :: List.replicate 34 0⟩
def ext2022ShortAcct : AccountView :=
  ⟨.raw [71], token2022ProgramId, false, List.replicate 100 0⟩

set_option maxRecDepth 4096 in
/-- Witness for C5: an exact-size legacy mint is accepted, an extended
2022 token account with the right tag at offset 165 is accepted, and a
2022 account whose data stops before the discriminator offset is
rejected. -/
theorem interface_checks_accept_exact_shape_witness :
    Esc.MintInterface.check fixLegacyMint = .ok () ∧
    Amm.TokenInterface.check ext2022TokenAcct = .ok () ∧
    ¬ (Esc.TokenAccountInterface.check ext2022ShortAcct = .ok ()) := by
  refine ⟨?_, ?_, ?_⟩
  · exact ((interface_checks_accept_exact_shape fixLegacyMint (Or.inl rfl)).1).mpr
      (Or.inl rfl)
  · exact ((interface_checks_accept_exact_shape ext2022TokenAcct
      (Or.inr rfl)).2.2.2).mpr (Or.inr ⟨rfl, by decide, by decide, by decide⟩)
  · intro hok
    have h2 := ((interface_checks_accept_exact_shape ext2022ShortAcct
      (Or.inr rfl)).2.1).mp hok
    rcases h2 with hc | ⟨-, -, hlt, -⟩
    · exact absurd hc (by decide)
    · exact absurd hlt (by decide)

/-- C7: when the account-shape checks of Swap pass but the pool Config
state is anything other than Initialized (1), Swap::process fails with
InvalidAccountData, issues no CPI at all (so no transfer happens and
the ledger is untouched), and its outcome does not depend on the vault
balances — the state gate sits before the vault reads and the curve. -/
theorem swap_requires_pool_state (a : Amm.SwapAccounts) (cfg : Amm.Config)
    (vx vy vx' vy' : Nat) (d : Amm.SwapIxData)
    (h0 : Amm.configLoadCheck a.config = .ok ())
    (h1 : Amm.AssociatedTokenAccount.check a.vaultX a.config.address cfg.mintX
        a.tokenProgram.address = .ok ())
    (h2 : Amm.AssociatedTokenAccount.check a.vaultY a.config.address cfg.mintY
        a.tokenProgram.address = .ok ())
    (h3 : Amm.AssociatedTokenAccount.check a.userXAta a.user.address cfg.mintX
        a.tokenProgram.address = .ok ())
    (h4 : Amm.AssociatedTokenAccount.check a.userYAta a.user.address cfg.mintY
        a.tokenProgram.address = .ok ())
    (hs : cfg.state ≠ Amm.stInit) :
    Amm.swapProcess a cfg vx vy d = (.error ProgramError.InvalidAccountData, []) ∧
    Amm.swapProcess a cfg vx vy d = Amm.swapProcess a cfg vx' vy' d ∧
    (∀ w : World, World.applyCpis w (Amm.swapProcess a cfg vx vy d).2 = w) := by
  have hstep : ∀ ux uy : Nat,
      Amm.swapProcess a cfg ux uy d = (.error ProgramError.InvalidAccountData, []) := by
    intro ux uy
    simp only [Amm.swapProcess, h0, h1, h2, h3, h4, Amm.bindCpis]
    rw [if_pos hs]
  refine ⟨hstep vx vy, (hstep vx vy).trans (hstep vx' vy').symm, ?_⟩
  intro w
  rw [hstep vx vy]
  rfl

-- Concrete swap fixtures: a pool config in the Uninitialized state
-- whose account shapes all validate.
def swCfgAddr : Address :=
  deriveAddress [configSeedLit, natToLeBytes 8 1, [21], [22], [254]]
    (Address.asArray ammProgramId)
def swUser : AccountView := ⟨.raw [30], systemProgramId, true, []⟩
def swConfigAcct : AccountView := ⟨swCfgAddr, ammProgramId, false, List.replicate 108 0⟩
def swVaultX : AccountView :=
  ⟨findProgramAddress [Address.asArray swCfgAddr, [1], [21]] [3],
    tokenProgramId, false, List.replicate 165 0⟩
def swVaultY : AccountView :=
  ⟨findProgramAddress [Address.asArray swCfgAddr, [1], [22]] [3],
    tokenProgramId, false, List.replicate 165 0⟩
def swUserXAta : AccountView :=
  ⟨findProgramAddress [[30], [1], [21]] [3], tokenProgramId, false,
    List.replicate 165 0⟩
def swUserYAta : AccountView :=
  ⟨findProgramAddress [[30], [1], [22]] [3], tokenProgramId, false,
    List.replicate 165 0⟩
def swAccts : Amm.SwapAccounts :=
  ⟨swUser, swUserXAta, swUserYAta, swVaultX, swVaultY, swConfigAcct,
    fixTokenProgramAcct⟩
def swCfgUninit : Amm.Config :=
  ⟨0, 1, List.replicate 32 0, .raw [21], .raw [22], 30, [254]⟩

/-- Witness for C7: on the concrete Uninitialized pool, Swap fails with
InvalidAccountData and its result is the same for vault balances
(1000, 1000) and (7, 9), with no CPI issued. -/
theorem swap_requires_pool_state_witness :
    Amm.swapProcess swAccts swCfgUninit 1000 1000 ⟨true, 5, 0, 0⟩
      = (.error ProgramError.InvalidAccountData, []) ∧
    Amm.swapProcess swAccts swCfgUninit 1000 1000 ⟨true, 5, 0, 0⟩
      = Amm.swapProcess swAccts swCfgUninit 7 9 ⟨true, 5, 0, 0⟩ := by
  have h := swap_requires_pool_state swAccts swCfgUninit 1000 1000 7 9
    ⟨true, 5, 0, 0⟩ rfl rfl rfl rfl rfl (by decide)
  exact ⟨h.1, h.2.1⟩

/-- C4: when the caller's `min` is strictly greater than the true
computable output (the fee-adjusted constant-product output for the
current reserves), the curve signals SlippageExceeded, Swap::process
fails with the error the handler maps it to (Custom 1), and no CPI is
issued before the failure, so neither vault balance changes. -/
theorem swap_min_above_output_fails (a : Amm.SwapAccounts) (cfg : Amm.Config)
    (vx vy : Nat) (d : Amm.SwapIxData)
    (h0 : Amm.configLoadCheck a.config = .ok ())
    (h1 : Amm.AssociatedTokenAccount.check a.vaultX a.config.address cfg.mintX
        a.tokenProgram.address = .ok ())
    (h2 : Amm.AssociatedTokenAccount.check a.vaultY a.config.address cfg.mintY
        a.tokenProgram.address = .ok ())
    (h3 : Amm.AssociatedTokenAccount.check a.userXAta a.user.address cfg.mintX
        a.tokenProgram.address = .ok ())
    (h4 : Amm.AssociatedTokenAccount.check a.userYAta a.user.address cfg.mintY
        a.tokenProgram.address = .ok ())
    (hs : cfg.state = Amm.stInit) (hx : vx ≠ 0) (hy : vy ≠ 0)
    (hmin : ({ x := vx, y := vy, fee := cfg.fee } : Amm.ConstantProduct).swapOutput
        (if d.isX then .X else .Y) d.amount < d.min) :
    Amm.ConstantProduct.swap ⟨vx, vy, cfg.fee⟩ (if d.isX then .X else .Y)
      d.amount d.min = .error Amm.CurveError.SlippageExceeded ∧
    Amm.swapProcess a cfg vx vy d = (.error (ProgramError.Custom 1), []) ∧
    (∀ w : World, World.applyCpis w (Amm.swapProcess a cfg vx vy d).2 = w) := by
  have hinit : Amm.ConstantProduct.init vx vy vx cfg.fee
      = .ok ⟨vx, vy, cfg.fee⟩ := by
    simp [Amm.ConstantProduct.init, hx, hy]
  have hswap : Amm.ConstantProduct.swap ⟨vx, vy, cfg.fee⟩
      (if d.isX then .X else .Y) d.amount d.min
      = .error Amm.CurveError.SlippageExceeded := by
    simp only [Amm.ConstantProduct.swap]
    rw [if_pos hmin]
  have hstep : Amm.swapProcess a cfg vx vy d
      = (.error (ProgramError.Custom 1), []) := by
    simp only [Amm.swapProcess, h0, h1, h2, h3, h4, Amm.bindCpis]
    rw [if_neg (not_not_intro hs), hinit]
    simp [hswap]
  refine ⟨hswap, hstep, ?_⟩
  intro w
  rw [hstep]
  rfl

def swCfgInit : Amm.Config :=
  ⟨1, 1, List.replicate 32 0, .raw [21], .raw [22], 30, [254]⟩

/-- Witness for C4: on the Initialized pool with reserves (1000, 1000)
and fee 30 bps, depositing 100 X yields the computable output 91, so a
swap asking for min = 92 fails with the slippage error and issues no
transfer. -/
theorem swap_min_above_output_fails_witness :
    Amm.ConstantProduct.swap ⟨1000, 1000, 30⟩ .X 100 92
      = .error Amm.CurveError.SlippageExceeded ∧
    Amm.swapProcess swAccts swCfgInit 1000 1000 ⟨true, 100, 92, 0⟩
      = (.error (ProgramError.Custom 1), []) := by
  have h := swap_min_above_output_fails swAccts swCfgInit 1000 1000
    ⟨true, 100, 92, 0⟩ rfl rfl rfl rfl rfl rfl (by decide) (by decide) (by decide)
  exact ⟨h.1, h.2.1⟩

/-- C3: with all account checks passing, Deposit::process on an empty
pool (zero LP supply and both reserves zero) issues transfers of
exactly (max_x, max_y) and the LP MintTo of `amount`; on a non-empty
pool the deposited amounts are the curve-computed (x, y): when they
are within the caller-supplied maxima the issued transfers carry
exactly x and y (and the MintTo carries `amount`), and when either
exceeds its maximum the instruction fails with InvalidArgument before
issuing any CPI, leaving every balance unchanged. -/
theorem deposit_amounts_and_slippage (a : Amm.DepositAccounts) (cfg : Amm.Config)
    (lpSupply vx vy : Nat) (d : Amm.DepositIxData)
    (h0 : Amm.configLoadCheck a.config = .ok ())
    (h1 : Amm.AssociatedTokenAccount.check a.vaultX a.config.address cfg.mintX
        a.tokenProgram.address = .ok ())
    (h2 : Amm.AssociatedTokenAccount.check a.vaultY a.config.address cfg.mintY
        a.tokenProgram.address = .ok ())
    (h3 : Amm.AssociatedTokenAccount.check a.userXAta a.user.address cfg.mintX
        a.tokenProgram.address = .ok ())
    (h4 : Amm.AssociatedTokenAccount.check a.userYAta a.user.address cfg.mintY
        a.tokenProgram.address = .ok ())
    (h5 : Amm.AssociatedTokenAccount.check a.userLpAta a.user.address
        a.mintLp.address a.tokenProgram.address = .ok ()) :
    (lpSupply = 0 ∧ vx = 0 ∧ vy = 0 →
      Amm.depositProcess a cfg lpSupply vx vy d =
        (.ok (), [Cpi.transfer a.userXAta.address a.vaultX.address
            a.config.address d.maxX
            (some [configSeedLit, a.user.address.asArray,
              natToLeBytes 8 cfg.seed, cfg.configBump]),
          Cpi.transfer a.userYAta.address a.vaultY.address
            a.config.address d.maxY
            (some [configSeedLit, a.user.address.asArray,
              natToLeBytes 8 cfg.seed, cfg.configBump]),
          Cpi.mintTo a.mintLp.address a.userLpAta.address
            a.config.address d.amount
            (some [configSeedLit, a.user.address.asArray,
              natToLeBytes 8 cfg.seed, cfg.configBump])])) ∧
    (∀ x y : Nat, ¬ (lpSupply = 0 ∧ vx = 0 ∧ vy = 0) →
      Amm.xyDepositAmountsFromL vx vy lpSupply d.amount 6 = .ok (x, y) →
      x ≤ d.maxX → y ≤ d.maxY →
      Amm.depositProcess a cfg lpSupply vx vy d =
        (.ok (), [Cpi.transfer a.userXAta.address a.vaultX.address
            a.config.address x
            (some [configSeedLit, a.user.address.asArray,
              natToLeBytes 8 cfg.seed, cfg.configBump]),
          Cpi.transfer a.userYAta.address a.vaultY.address
            a.config.address y
            (some [configSeedLit, a.user.address.asArray,
              natToLeBytes 8 cfg.seed, cfg.configBump]),
          Cpi.mintTo a.mintLp.address a.userLpAta.address
            a.config.address d.amount
            (some [configSeedLit, a.user.address.asArray,
              natToLeBytes 8 cfg.seed, cfg.configBump])])) ∧
    (∀ x y : Nat, ¬ (lpSupply = 0 ∧ vx = 0 ∧ vy = 0) →
      Amm.xyDepositAmountsFromL vx vy lpSupply d.amount 6 = .ok (x, y) →
      (d.maxX < x ∨ d.maxY < y) →
      Amm.depositProcess a cfg lpSupply vx vy d
          = (.error ProgramError.InvalidArgument, []) ∧
      (∀ w : World, World.applyCpis w (Amm.depositProcess a cfg lpSupply vx vy d).2 = w)) := by
  refine ⟨?_, ?_, ?_⟩
  · intro hempty
    simp only [Amm.depositProcess, h0, h1, h2, h3, h4, h5, Amm.bindCpis]
    rw [if_pos hempty]
    simp
  · intro x y hne hxy hmx hmy
    simp only [Amm.depositProcess, h0, h1, h2, h3, h4, h5, Amm.bindCpis]
    rw [if_neg hne, hxy]
    have hin : ¬ ¬ (x ≤ d.maxX ∧ y ≤ d.maxY) := not_not_intro ⟨hmx, hmy⟩
    simp [hin]
  · intro x y hne hxy hover
    have hstep : Amm.depositProcess a cfg lpSupply vx vy d
        = (.error ProgramError.InvalidArgument, []) := by
      simp only [Amm.depositProcess, h0, h1, h2, h3, h4, h5, Amm.bindCpis]
      rw [if_neg hne, hxy]
      have hslip : ¬ (x ≤ d.maxX ∧ y ≤ d.maxY) := by
        rcases hover with hov | hov <;> omega
      simp [hslip]
    refine ⟨hstep, ?_⟩
    intro w
    rw [hstep]
    rfl

def dpMintLp : AccountView := ⟨.raw [23], tokenProgramId, false, List.replicate 82 0⟩
def dpUserLpAta : AccountView :=
  ⟨findProgramAddress [[30], [1], [23]] [3], tokenProgramId, false,
    List.replicate 165 0⟩
def dpAccts : Amm.DepositAccounts :=
  ⟨swUser, dpMintLp, swVaultX, swVaultY, swUserXAta, swUserYAta, dpUserLpAta,
    swConfigAcct, fixTokenProgramAcct⟩

/-- Witness for C3: a first deposit into the empty pool moves exactly
(max_x, max_y) = (100, 200) and mints 10 LP; a deposit into a pool with
supply 100 and reserves (50, 50) requesting 10 LP computes amounts
(5, 5), within the maxima (6, 7), and transfers exactly those; the
same pool asked for 1000 LP computes (500, 500) above max_x = 3 and
fails with InvalidArgument issuing no CPI. -/
theorem deposit_amounts_and_slippage_witness :
    Amm.depositProcess dpAccts swCfgInit 0 0 0 ⟨10, 100, 200, 0⟩
      = (.ok (), [Cpi.transfer dpAccts.userXAta.address dpAccts.vaultX.address
          dpAccts.config.address 100
          (some [configSeedLit, [30], [1, 0, 0, 0, 0, 0, 0, 0], [254]]),
        Cpi.transfer dpAccts.userYAta.address dpAccts.vaultY.address
          dpAccts.config.address 200
          (some [configSeedLit, [30], [1, 0, 0, 0, 0, 0, 0, 0], [254]]),
        Cpi.mintTo dpAccts.mintLp.address dpAccts.userLpAta.address
          dpAccts.config.address 10
          (some [configSeedLit, [30], [1, 0, 0, 0, 0, 0, 0, 0], [254]])]) ∧
    Amm.depositProcess dpAccts swCfgInit 100 50 50 ⟨10, 6, 7, 0⟩
      = (.ok (), [Cpi.transfer dpAccts.userXAta.address dpAccts.vaultX.address
          dpAccts.config.address 5
          (some [configSeedLit, [30], [1, 0, 0, 0, 0, 0, 0, 0], [254]]),
        Cpi.transfer dpAccts.userYAta.address dpAccts.vaultY.address
          dpAccts.config.address 5
          (some [configSeedLit, [30], [1, 0, 0, 0, 0, 0, 0, 0], [254]]),
        Cpi.mintTo dpAccts.mintLp.address dpAccts.userLpAta.address
          dpAccts.config.address 10
          (some [configSeedLit, [30], [1, 0, 0, 0, 0, 0, 0, 0], [254]])]) ∧
    Amm.depositProcess dpAccts swCfgInit 100 50 50 ⟨1000, 3, 1000, 0⟩
      = (.error ProgramError.InvalidArgument, []) := by
  refine ⟨?_, ?_, ?_⟩
  · exact (deposit_amounts_and_slippage dpAccts swCfgInit 0 0 0 ⟨10, 100, 200, 0⟩
      rfl rfl rfl rfl rfl rfl).1 ⟨rfl, rfl, rfl⟩
  · exact (deposit_amounts_and_slippage dpAccts swCfgInit 100 50 50
      ⟨10, 6, 7, 0⟩ rfl rfl rfl rfl rfl rfl).2.1 5 5
      (by simp) rfl (by decide) (by decide)
  · exact ((deposit_amounts_and_slippage dpAccts swCfgInit 100 50 50
      ⟨1000, 3, 1000, 0⟩ rfl rfl rfl rfl rfl rfl).2.2 500 500
      (by simp) rfl (Or.inl (by decide))).1

/-- C2 (failing input): on a concrete first deposit, the user-to-vault
transfer that Deposit::process issues names the pool config — not the
depositing user — as the transfer authority, and signs it with the
seeds [b"config", user, seed, config_bump], which do not derive the
config's address (Initialize derives the config from
[b"config", seed, mint_x, mint_y, config_bump]).  A transfer out of
the user's ATA authorized by an account that is neither its owner nor
a provable signer cannot succeed under the token programs, so the
transfers are not made under the depositor's authority as specified. -/
theorem deposit_user_leg_signed_by_config :
    ((Amm.depositProcess dpAccts swCfgInit 0 0 0 ⟨10, 100, 200, 0⟩).2.head? =
      some (Cpi.transfer swUserXAta.address swVaultX.address swCfgAddr 100
        (some [configSeedLit, [30], [1, 0, 0, 0, 0, 0, 0, 0], [254]]))) ∧
    swCfgAddr ≠ swUser.address ∧
    deriveAddress [configSeedLit, [30], [1, 0, 0, 0, 0, 0, 0, 0], [254]]
        (Address.asArray ammProgramId) ≠ swCfgAddr ∧
    deriveAddress [configSeedLit, [1, 0, 0, 0, 0, 0, 0, 0], [21], [22], [254]]
        (Address.asArray ammProgramId) = swCfgAddr := by
  exact ⟨rfl, by decide, by decide, rfl⟩

-- Refund fixtures: a valid escrow, its vault (holding 250), the maker
-- and the maker's ATA.
def rfMaker : AccountView := ⟨.raw [10], systemProgramId, true, []⟩
def rfRec : Esc.EscrowRec := ⟨9, .raw [10], .raw [52], .raw [53], 400, 251⟩
def rfEscrowAddr : Address :=
  deriveAddress [escrowSeedLit, [10], natToLeBytes 8 9, [251]]
    (Address.asArray escrowProgramId)
def rfEscrowAcct : AccountView :=
  ⟨rfEscrowAddr, escrowProgramId, false, List.replicate 113 0⟩
def rfVaultAddr : Address :=
  deriveAddress [Address.asArray rfEscrowAddr, [1], [52]] [3]
def rfVault : AccountView :=
  ⟨rfVaultAddr, tokenProgramId, false, List.replicate 165 0⟩
def rfMakerAtaAddr : Address := deriveAddress [[10], [1], [52]] [3]
def rfMakerAta : AccountView :=
  ⟨rfMakerAtaAddr, tokenProgramId, false, List.replicate 165 0⟩
def rfAccts : Esc.RefundAccounts :=
  ⟨rfMaker, rfEscrowAcct, fixLegacyMint, rfVault, rfMakerAta,
    fixSystemProgramAcct, fixTokenProgramAcct⟩

/-- The CPIs the Refund fixture issues. -/
def rfCpis : List Cpi :=
  [Cpi.transfer rfVaultAddr rfMakerAtaAddr rfEscrowAddr 250
    (some [escrowSeedLit, [10], [9, 0, 0, 0, 0, 0, 0, 0], [251]]),
   Cpi.resizeAccount rfVaultAddr 1,
   Cpi.closeTokenAccount rfVaultAddr rfMakerAtaAddr rfEscrowAddr
    (some [escrowSeedLit, [10], [9, 0, 0, 0, 0, 0, 0, 0], [251]])]

/-- The pre-call ledger: the vault holds 250, everything is alive. -/
def rfW0 : World :=
  ⟨fun a => if a = rfVaultAddr then 250 else 0, fun _ => true⟩

/-- C1 (failing input): a fully valid Refund succeeds, credits the
maker's ATA with exactly the vault's pre-call balance (250) and closes
the vault, but issues no operation against the escrow record account —
the record still exists afterwards, contradicting the claim that the
record is closed together with the vault (the repository's
AccountClose::close for ProgramAccount is never invoked by Refund). -/
theorem refund_pays_maker_but_record_survives :
    Esc.refundFull rfAccts rfRec 250 = .ok rfCpis ∧
    (World.applyCpis rfW0 rfCpis).bal rfMakerAtaAddr
      = rfW0.bal rfMakerAtaAddr + 250 ∧
    (World.applyCpis rfW0 rfCpis).alive rfVaultAddr = false ∧
    (World.applyCpis rfW0 rfCpis).alive rfEscrowAddr = true ∧
    (rfCpis.all fun c =>
      match c with
      | Cpi.closeTokenAccount acct _ _ _ => acct ≠ rfEscrowAddr
      | _ => true) = true :=
  ⟨rfl, by decide, by decide, by decide, by decide⟩
